import Mathlib

/-!
Shallow embedding of `src/app.py` — a FastAPI semantic memory service
(embedding generation, raw SQL query, vector similarity search, and
insert/update of memory records over a Postgres table with a pgvector
column).

Modelling conventions:
* The sentence-transformer model is `Option Model` (the global `model`
  variable, `None` before the startup event completes).  A loaded model is
  a function `String → Except String Vec`: `encode` is deterministic and
  may raise (the `Except.error` case), mirroring the `try/except` around
  `model.encode`.
* Vectors are lists of rationals; the store's distance operator `<=>` is an
  abstract parameter `dist : Vec → Vec → ℚ`.
* Timestamps are naturals (`datetime.now()` is passed in as `now`).
* Service state carries the `public.memory` table as a list of rows plus a
  counter of storage connections that have been acquired and not yet
  closed (`get_db_connection` increments it, `conn.close()` decrements it)
  and a counter of commits.  Python exceptions become `Except.error` with
  the HTTP status code and detail of the raised `HTTPException`; the state
  at the raise point is returned alongside, so leaked connections are
  observable.
* `ORDER BY similarity LIMIT k` is modelled as a merge sort on the
  similarity column followed by `take`; Postgres rejects a negative LIMIT
  with an error, which is modelled as the error branch.
-/

namespace App

abbrev Vec := List ℚ
abbrev Time := ℕ

/-- A loaded sentence-transformer model: `encode` as a deterministic,
possibly-raising function from text to a vector. -/
abbrev Model := String → Except String Vec

def MODEL_NAME : String := "all-mpnet-base-v2"

/-- The `HTTPException(status_code, detail)` raised by the endpoints. -/
structure AppError where
  status_code : ℕ
  detail : String
deriving DecidableEq, Repr

/-- Pydantic `TextToEmbed`. -/
structure TextToEmbed where
  text : String
deriving DecidableEq, Repr

/-- Pydantic `EmbeddingResponse`. -/
structure EmbeddingResponse where
  embedding : List ℚ
  model : String
deriving DecidableEq, Repr

/-- Pydantic `SimilaritySearchRequest`: `top_k` is a plain `int` with
default 5 and no positivity constraint. -/
structure SimilaritySearchRequest where
  query_text : String
  top_k : ℤ := 5
deriving DecidableEq, Repr

/-- Pydantic `MemoryRecord` (the request body of `/mem_crud`). -/
structure MemoryRecord where
  id : Option ℕ := none
  title : String
  content : String
  scope : String := "global"
  project : Option String := none
  category : Option String := none
  tags : Option (List String) := none
  source : Option String := none
  priority : ℤ := 0
  status : String := "active"
  usage_count : ℤ := 0
  created_at : Option Time := none
  updated_at : Option Time := none
  last_used_at : Option Time := none
deriving DecidableEq, Repr

/-- A persisted row of `public.memory`.  `id` is assigned by the store;
`created_at` and `updated_at` are always set on insert (the code
substitutes `datetime.now()` when the request omits them). -/
structure Row where
  id : ℕ
  title : String
  content : String
  embedding : Vec
  scope : String
  project : Option String
  category : Option String
  tags : Option (List String)
  source : Option String
  priority : ℤ
  status : String
  usage_count : ℤ
  created_at : Time
  updated_at : Time
  last_used_at : Option Time
deriving DecidableEq, Repr

/-- Heterogeneous cell values for the row dictionaries the endpoints
return (`dict(zip(colnames, row))`). -/
inductive Val where
  | vnat : ℕ → Val
  | vint : ℤ → Val
  | vstr : String → Val
  | vrat : ℚ → Val
  | vtime : Time → Val
  | vnull : Val
  | vtags : List String → Val
deriving DecidableEq, Repr

def Val.ofOptStr : Option String → Val
  | none => .vnull
  | some s => .vstr s

def Val.ofOptTags : Option (List String) → Val
  | none => .vnull
  | some ts => .vtags ts

def Val.ofOptTime : Option Time → Val
  | none => .vnull
  | some t => .vtime t

/-- Service state: the `public.memory` table, the number of storage
connections acquired and not yet closed, and the number of commits. -/
structure ServiceState where
  db : List Row
  openConns : ℕ := 0
  commits : ℕ := 0
deriving DecidableEq, Repr

/-- `GET /health` response. -/
structure HealthResponse where
  status : String
  model_loaded : Bool
  model_name : String
deriving DecidableEq, Repr

/-- Endpoint `health_check` — `GET /health` (src/app.py lines 75-81). -/
def health_check (model : Option Model) : HealthResponse :=
  { status := "ok", model_loaded := model.isSome, model_name := MODEL_NAME }

/-- Endpoint `generate_embedding` — `POST /embed` (src/app.py lines 83-92). -/
def generate_embedding (model : Option Model) (data : TextToEmbed) :
    Except AppError EmbeddingResponse :=
  match model with
  | none => .error ⟨503, "Model is not yet loaded or failed to load."⟩
  | some encode =>
    match encode data.text with
    | .ok v => .ok { embedding := v, model := MODEL_NAME }
    | .error e => .error ⟨500, "Error during embedding generation: " ++ e⟩

/-- An arbitrary SQL statement submitted to `/db_query`, together with the
store's semantics for it: its actual kind (read or write), the result set
it produces when executed as a read, the row count `cur.rowcount` reports
after execution, its effect on the table (applied when committed), and
whether executing it raises. -/
structure Statement where
  text : String
  isRead : Bool
  resultRows : List (List (String × Val)) := []
  rowcount : ℤ := 0
  effect : List Row → List Row := id
  raises : Bool := false

/-- The SELECT test of line 100:
`request.query.strip().upper().startswith("SELECT")`, over the character
list.  Only leading whitespace can influence a SELECT-prefix test, so
stripping is `dropWhile isWhitespace`; `upper()` is `Char.toUpper`
character-wise (the probe string is pure ASCII). -/
def startsWithSelect (q : String) : Bool :=
  List.isPrefixOf "SELECT".data
    ((q.data.dropWhile Char.isWhitespace).map Char.toUpper)

/-- Result of `/db_query`: row dictionaries for the SELECT-classified
branch, a status dictionary for the other branch. -/
inductive QueryResult where
  | rows : List (List (String × Val)) → QueryResult
  | affected : ℤ → QueryResult
deriving DecidableEq, Repr

/-- The dictionary literal `{"status": "success", "rows_affected": cur.rowcount}`. -/
def QueryResult.toDict : QueryResult → List (String × Val)
  | .rows _ => []
  | .affected n => [("status", .vstr "success"), ("rows_affected", .vint n)]

/-- Endpoint `query_memory` — `POST /db_query` (src/app.py lines 94-111).
A connection is acquired, the statement executed, and the branch chosen by
the textual SELECT test.  If execution raises, or if the SELECT branch is
taken for a statement that produced no result set (`cur.description` is
`None` for a write, so line 101 raises), the `except` clause re-raises as
HTTP 500 without closing the connection.  The write branch commits (which
applies the statement's effect to the table); the read branch never
commits, so `conn.close()` rolls the transaction back (no effect). -/
def query_memory (stmt : Statement) (st : ServiceState) :
    Except AppError QueryResult × ServiceState :=
  let st1 := { st with openConns := st.openConns + 1 }
  if stmt.raises then
    (.error ⟨500, "Error during query execution: " ++ stmt.text⟩, st1)
  else if startsWithSelect stmt.text then
    if stmt.isRead then
      (.ok (.rows stmt.resultRows), { st1 with openConns := st1.openConns - 1 })
    else
      -- cur.description is None: iterating it raises, caught as HTTP 500
      (.error ⟨500, "Error during query execution: NoneType is not iterable"⟩, st1)
  else
    let st2 := { st1 with db := stmt.effect st1.db, commits := st1.commits + 1 }
    (.ok (.affected stmt.rowcount), { st2 with openConns := st2.openConns - 1 })

/-- One element of the `/mem_similarity` result set: the projected columns
of line 122 (the `embedding` column is deliberately absent) plus the
computed `similarity` distance. -/
structure SimEntry where
  id : ℕ
  title : String
  content : String
  scope : String
  project : Option String
  category : Option String
  tags : Option (List String)
  source : Option String
  priority : ℤ
  status : String
  usage_count : ℤ
  created_at : Time
  updated_at : Time
  last_used_at : Option Time
  similarity : ℚ
deriving DecidableEq, Repr

/-- Project a stored row to the similarity result columns, computing
`embedding <=> query AS similarity` via the abstract distance. -/
def projectRow (dist : Vec → Vec → ℚ) (qvec : Vec) (r : Row) : SimEntry :=
  { id := r.id, title := r.title, content := r.content, scope := r.scope,
    project := r.project, category := r.category, tags := r.tags,
    source := r.source, priority := r.priority, status := r.status,
    usage_count := r.usage_count, created_at := r.created_at,
    updated_at := r.updated_at, last_used_at := r.last_used_at,
    similarity := dist r.embedding qvec }

/-- The column names of the similarity query (line 122 of src/app.py),
plus the computed `similarity` column. -/
def select_columns : List String :=
  ["id", "title", "content", "scope", "project", "category", "tags",
   "source", "priority", "status", "usage_count", "created_at",
   "updated_at", "last_used_at"]

/-- The dictionary `dict(zip(colnames, row))` for one similarity result
row. -/
def SimEntry.toDict (e : SimEntry) : List (String × Val) :=
  [("id", .vnat e.id), ("title", .vstr e.title), ("content", .vstr e.content),
   ("scope", .vstr e.scope), ("project", Val.ofOptStr e.project),
   ("category", Val.ofOptStr e.category), ("tags", Val.ofOptTags e.tags),
   ("source", Val.ofOptStr e.source), ("priority", .vint e.priority),
   ("status", .vstr e.status), ("usage_count", .vint e.usage_count),
   ("created_at", .vtime e.created_at), ("updated_at", .vtime e.updated_at),
   ("last_used_at", Val.ofOptTime e.last_used_at),
   ("similarity", .vrat e.similarity)]

/-- Boolean comparison on the `similarity` column, the ORDER BY key of the
ranking query. -/
def simLe (a b : SimEntry) : Bool := decide (a.similarity ≤ b.similarity)

/-- Endpoint `similarity_memory_search` — `POST /mem_similarity` (src/app.py
lines 113-132).  Guard on the model, encode the query text, open a
connection, run the interpolated `SELECT ... ORDER BY similarity LIMIT
top_k` (Postgres rejects a negative LIMIT; that exception path, like any
other, skips `conn.close()`), close, and return. -/
def similarity_memory_search (model : Option Model) (dist : Vec → Vec → ℚ)
    (req : SimilaritySearchRequest) (st : ServiceState) :
    Except AppError (List SimEntry) × ServiceState :=
  match model with
  | none => (.error ⟨503, "Model is not yet loaded or failed to load."⟩, st)
  | some encode =>
    match encode req.query_text with
    | .error e => (.error ⟨500, "Error during similarity search: " ++ e⟩, st)
    | .ok qvec =>
      let st1 := { st with openConns := st.openConns + 1 }
      if req.top_k < 0 then
        (.error ⟨500, "Error during similarity search: LIMIT must not be negative"⟩, st1)
      else
        let entries := st1.db.map (projectRow dist qvec)
        let results := (entries.mergeSort simLe).take req.top_k.toNat
        (.ok results, { st1 with openConns := st1.openConns - 1 })

/-- The id Postgres assigns to a newly inserted row (`RETURNING id` of the
serial primary key): one more than the largest id in the table. -/
def freshId (db : List Row) : ℕ := (db.map Row.id).foldr max 0 + 1

/-- Result of `/mem_crud`: the insert branch returns
`{"status": ..., "id": ..., "operation": "insert"}` (line 159, no
`rows_affected` key), the update branch adds `"rows_affected"`
(line 174); `rows_affected` is `none` exactly when the key is absent. -/
structure UpsertResult where
  status : String
  id : ℕ
  operation : String
  rows_affected : Option ℕ
deriving DecidableEq, Repr

/-- The response dictionary literal of lines 159 / 174. -/
def UpsertResult.toDict (u : UpsertResult) : List (String × Val) :=
  match u.rows_affected with
  | none => [("status", .vstr u.status), ("id", .vnat u.id),
             ("operation", .vstr u.operation)]
  | some n => [("status", .vstr u.status), ("id", .vnat u.id),
               ("operation", .vstr u.operation), ("rows_affected", .vnat n)]

/-- The row inserted by the INSERT of lines 146-156: embedding freshly
computed from `record.content`, `created_at`/`updated_at` defaulting to
`datetime.now()` when omitted. -/
def insertedRow (record : MemoryRecord) (embedding : Vec) (now : Time)
    (rid : ℕ) : Row :=
  { id := rid, title := record.title, content := record.content,
    embedding := embedding, scope := record.scope, project := record.project,
    category := record.category, tags := record.tags, source := record.source,
    priority := record.priority, status := record.status,
    usage_count := record.usage_count,
    created_at := record.created_at.getD now,
    updated_at := record.updated_at.getD now,
    last_used_at := record.last_used_at }

/-- The per-row effect of the UPDATE of lines 162-172: rows whose id
matches get every mutable field (including the embedding) overwritten;
`created_at` is untouched by the SET list. -/
def updatedRow (record : MemoryRecord) (embedding : Vec) (now : Time)
    (rid : ℕ) (r : Row) : Row :=
  if r.id = rid then
    { r with
      title := record.title, content := record.content,
      embedding := embedding, scope := record.scope,
      project := record.project, category := record.category,
      tags := record.tags, source := record.source,
      priority := record.priority, status := record.status,
      usage_count := record.usage_count,
      updated_at := record.updated_at.getD now,
      last_used_at := record.last_used_at }
  else r

/-- Endpoint `insert_update_memory` — `POST /mem_crud` (src/app.py lines 134-180).
Guard on the model, compute the embedding from `record.content`, then (and
only then) open a connection; branch on `record.id is None` into INSERT
RETURNING id or UPDATE ... WHERE id; commit; build the response dict;
close.  An embedding failure raises before `get_db_connection` is ever
reached. -/
def insert_update_memory (model : Option Model) (now : Time)
    (record : MemoryRecord) (st : ServiceState) :
    Except AppError UpsertResult × ServiceState :=
  match model with
  | none => (.error ⟨503, "Model is not yet loaded or failed to load."⟩, st)
  | some encode =>
    match encode record.content with
    | .error e => (.error ⟨500, "Error during insert/update memory: " ++ e⟩, st)
    | .ok embedding =>
      let st1 := { st with openConns := st.openConns + 1 }
      match record.id with
      | none =>
        let rid := freshId st1.db
        let st2 := { st1 with
                     db := st1.db ++ [insertedRow record embedding now rid],
                     commits := st1.commits + 1 }
        (.ok { status := "success", id := rid, operation := "insert",
               rows_affected := none },
         { st2 with openConns := st2.openConns - 1 })
      | some rid =>
        let cnt := (st1.db.filter (fun r => r.id = rid)).length
        let st2 := { st1 with
                     db := st1.db.map (updatedRow record embedding now rid),
                     commits := st1.commits + 1 }
        (.ok { status := "success", id := rid, operation := "update",
               rows_affected := some cnt },
         { st2 with openConns := st2.openConns - 1 })

/-! ## Shared helper lemmas -/

/-- Every element of a list of naturals is bounded by its right fold with
`max`. -/
theorem mem_le_foldr_max {x : ℕ} {l : List ℕ} (hx : x ∈ l) :
    x ≤ l.foldr max 0 := by
  induction l with
  | nil => cases hx
  | cons a t ih =>
    rcases List.mem_cons.mp hx with h | h
    · subst h; exact le_max_left _ _
    · exact le_trans (ih h) (le_max_right _ _)

/-- Every stored id is strictly below the id assigned to the next insert. -/
theorem id_lt_freshId {r : Row} {db : List Row} (hr : r ∈ db) :
    r.id < freshId db :=
  Nat.lt_succ_of_le (mem_le_foldr_max (List.mem_map_of_mem Row.id hr))

/-- The id assigned on insert is not already present in the table. -/
theorem freshId_not_mem (db : List Row) : freshId db ∉ db.map Row.id := by
  intro h
  obtain ⟨r, hr, hid⟩ := List.mem_map.mp h
  exact Nat.ne_of_lt (id_lt_freshId hr) hid

/-- Evaluation of the insert branch of `insert_update_memory`: a loaded
model, a successful encode, and `record.id` absent. -/
theorem upsert_insert_run (encode : Model) (v : Vec) (now : Time)
    (record : MemoryRecord) (st : ServiceState)
    (henc : encode record.content = .ok v) (hid : record.id = none) :
    insert_update_memory (some encode) now record st =
      (.ok { status := "success", id := freshId st.db, operation := "insert",
             rows_affected := none },
       { db := st.db ++ [insertedRow record v now (freshId st.db)],
         openConns := st.openConns, commits := st.commits + 1 }) := by
  simp [insert_update_memory, henc, hid]

/-- Evaluation of the update branch of `insert_update_memory`: a loaded
model, a successful encode, and `record.id` present. -/
theorem upsert_update_run (encode : Model) (v : Vec) (now : Time)
    (record : MemoryRecord) (st : ServiceState) (rid : ℕ)
    (henc : encode record.content = .ok v) (hid : record.id = some rid) :
    insert_update_memory (some encode) now record st =
      (.ok { status := "success", id := rid, operation := "update",
             rows_affected := some (st.db.filter (fun r => r.id = rid)).length },
       { db := st.db.map (updatedRow record v now rid),
         openConns := st.openConns, commits := st.commits + 1 }) := by
  simp [insert_update_memory, henc, hid]

/-- Evaluation of the success path of `similarity_memory_search`: a loaded
model, a successful encode, and a non-negative LIMIT. -/
theorem similarity_run (encode : Model) (qvec : Vec) (dist : Vec → Vec → ℚ)
    (req : SimilaritySearchRequest) (st : ServiceState)
    (henc : encode req.query_text = .ok qvec) (hk : 0 ≤ req.top_k) :
    similarity_memory_search (some encode) dist req st =
      (.ok (((st.db.map (projectRow dist qvec)).mergeSort simLe).take
              req.top_k.toNat),
       st) := by
  simp [similarity_memory_search, henc, not_lt.mpr hk]

/-- The ORDER BY key comparison is transitive. -/
theorem simLe_trans (a b c : SimEntry) (hab : simLe a b = true)
    (hbc : simLe b c = true) : simLe a c = true := by
  simp only [simLe, decide_eq_true_eq] at *
  exact le_trans hab hbc

/-- The ORDER BY key comparison is total. -/
theorem simLe_total (a b : SimEntry) : (simLe a b || simLe b a) = true := by
  simp only [simLe, Bool.or_eq_true, decide_eq_true_eq]
  exact le_total _ _

/-- On every successful raw query the acquired connection has been closed
again. -/
theorem query_memory_success_releases (stmt : Statement)
    (st st' : ServiceState) (q : QueryResult)
    (h : query_memory stmt st = (.ok q, st')) :
    st'.openConns = st.openConns := by
  unfold query_memory at h
  split at h
  · simp at h
  · split at h
    · split at h
      · injection h with h1 h2
        subst h2
        simp
      · simp at h
    · injection h with h1 h2
      subst h2
      simp

/-- On every successful similarity search the acquired connection has been
closed again. -/
theorem similarity_success_releases (model : Option Model)
    (dist : Vec → Vec → ℚ) (req : SimilaritySearchRequest)
    (st st' : ServiceState) (es : List SimEntry)
    (h : similarity_memory_search model dist req st = (.ok es, st')) :
    st'.openConns = st.openConns := by
  cases model with
  | none => simp [similarity_memory_search] at h
  | some encode =>
    cases henc : encode req.query_text with
    | error e => simp [similarity_memory_search, henc] at h
    | ok qvec =>
      simp only [similarity_memory_search, henc] at h
      split at h
      · simp at h
      · injection h with h1 h2
        subst h2
        simp

/-- On every successful upsert the acquired connection has been closed
again. -/
theorem upsert_success_releases (model : Option Model) (now : Time)
    (record : MemoryRecord) (st st' : ServiceState) (u : UpsertResult)
    (h : insert_update_memory model now record st = (.ok u, st')) :
    st'.openConns = st.openConns := by
  cases model with
  | none => simp [insert_update_memory] at h
  | some encode =>
    cases henc : encode record.content with
    | error e => simp [insert_update_memory, henc] at h
    | ok v =>
      cases hid : record.id with
      | none =>
        rw [upsert_insert_run encode v now record st henc hid] at h
        injection h with h1 h2
        subst h2
        rfl
      | some rid =>
        rw [upsert_update_run encode v now record st rid henc hid] at h
        injection h with h1 h2
        subst h2
        rfl

/-! ## Claims -/

/-- C1: Stored-embedding consistency invariant — after every successful
upsert (insert or update path of `insert_update_memory`) of a record with
content `c`, every row of the resulting table carrying the returned id has
its embedding equal to the vector the model freshly computed from
`record.content`; the embedding is never caller-supplied (a `MemoryRecord`
has no embedding field at all) and cannot drift from content. -/
theorem upsert_embedding_consistency (encode : Model) (now : Time)
    (record : MemoryRecord) (st st' : ServiceState) (res : UpsertResult)
    (h : insert_update_memory (some encode) now record st = (.ok res, st')) :
    ∃ v, encode record.content = .ok v ∧
      ∀ r ∈ st'.db, r.id = res.id → r.embedding = v := by
  cases henc : encode record.content with
  | error e => simp [insert_update_memory, henc] at h
  | ok v =>
    refine ⟨v, rfl, ?_⟩
    cases hid : record.id with
    | none =>
      rw [upsert_insert_run encode v now record st henc hid] at h
      injection h with h1 h2
      injection h1 with h1
      subst h1 h2
      intro r hr hrid
      rcases List.mem_append.mp hr with hmem | hmem
      · exact absurd hrid (Nat.ne_of_lt (id_lt_freshId hmem))
      · rw [List.mem_singleton.mp hmem]; rfl
    | some rid =>
      rw [upsert_update_run encode v now record st rid henc hid] at h
      injection h with h1 h2
      injection h1 with h1
      subst h1 h2
      intro r hr hrid
      obtain ⟨r0, hr0, hmap⟩ := List.mem_map.mp hr
      subst hmap
      by_cases hc : r0.id = rid
      · simp [updatedRow, hc]
      · exfalso
        simp only [updatedRow, if_neg hc] at hrid
        exact hc hrid

/-- Witness for C1: inserting `content := "x"` into an empty table with a
model that encodes every text as `[1]` yields a table whose single row
(the one with the returned id 1) stores exactly that vector. -/
theorem upsert_embedding_consistency_witness :
    ∃ v, (fun _ : String => (Except.ok [(1 : ℚ)] : Except String Vec)) "x" =
        .ok v ∧
      ∀ r ∈ ({ db := [insertedRow { title := "A", content := "x" } [1] 0 1],
               openConns := 0, commits := 1 } : ServiceState).db,
        r.id = ({ status := "success", id := 1, operation := "insert",
                  rows_affected := none } : UpsertResult).id →
          r.embedding = v :=
  upsert_embedding_consistency (fun _ => .ok [1]) 0
    { title := "A", content := "x" }
    { db := [], openConns := 0, commits := 0 }
    { db := [insertedRow { title := "A", content := "x" } [1] 0 1],
      openConns := 0, commits := 1 }
    { status := "success", id := 1, operation := "insert",
      rows_affected := none }
    (by rfl)

/-- C2: Write-flow atomicity on embedding failure — if the model's encode
call raises for `record.content`, `insert_update_memory` aborts with an
HTTP 500 error before any storage access: the returned state is exactly
the input state, so no connection was opened (`openConns` unchanged) and
no row was inserted or updated (`db` unchanged). -/
theorem embedding_failure_aborts (encode : Model) (now : Time)
    (record : MemoryRecord) (st : ServiceState) (e : String)
    (h : encode record.content = .error e) :
    insert_update_memory (some encode) now record st =
      (.error ⟨500, "Error during insert/update memory: " ++ e⟩, st) := by
  simp [insert_update_memory, h]

/-- Witness for C2: a model whose encode always raises "boom" makes the
upsert fail with HTTP 500 and leaves the empty state untouched. -/
theorem embedding_failure_aborts_witness :
    insert_update_memory (some fun _ => .error "boom") 0
        { title := "A", content := "x" }
        { db := [], openConns := 0, commits := 0 } =
      (.error ⟨500, "Error during insert/update memory: " ++ "boom"⟩,
       { db := [], openConns := 0, commits := 0 }) :=
  embedding_failure_aborts (fun _ => .error "boom") 0
    { title := "A", content := "x" }
    { db := [], openConns := 0, commits := 0 } "boom" rfl

/-- C3: Similarity-search ordering and truncation — under the precondition
`top_k > 0`, a successful `similarity_memory_search` returns results in
non-decreasing order of distance between the query embedding and each
stored embedding (the `similarity` column, ascending, closest first) and
returns at most `top_k` results, truncating rather than erroring when the
table holds fewer than `top_k` rows. -/
theorem similarity_sorted_truncated (encode : Model) (dist : Vec → Vec → ℚ)
    (req : SimilaritySearchRequest) (st st' : ServiceState)
    (results : List SimEntry) (hk : 0 < req.top_k)
    (h : similarity_memory_search (some encode) dist req st =
          (.ok results, st')) :
    results.Sorted (fun a b => a.similarity ≤ b.similarity) ∧
    (results.length : ℤ) ≤ req.top_k := by
  cases henc : encode req.query_text with
  | error e => simp [similarity_memory_search, henc] at h
  | ok qvec =>
    rw [similarity_run encode qvec dist req st henc (le_of_lt hk)] at h
    injection h with h1 h2
    injection h1 with h1
    subst h1
    constructor
    · have hs := List.sorted_mergeSort simLe_trans simLe_total
        (st.db.map (projectRow dist qvec))
      have hp := List.Pairwise.sublist
        (List.take_sublist req.top_k.toNat
          ((st.db.map (projectRow dist qvec)).mergeSort simLe)) hs
      exact hp.imp (fun hab => of_decide_eq_true hab)
    · calc ((List.take req.top_k.toNat
              ((st.db.map (projectRow dist qvec)).mergeSort simLe)).length : ℤ)
          = ((req.top_k.toNat ⊓
              ((st.db.map (projectRow dist qvec)).mergeSort simLe).length : ℕ) : ℤ) := by
            rw [List.length_take]
        _ ≤ (req.top_k.toNat : ℤ) := by exact_mod_cast min_le_left _ _
        _ = req.top_k := Int.toNat_of_nonneg (le_of_lt hk)

/-- Witness for C3: a search with `top_k = 5` over an empty table succeeds
and returns the empty, trivially sorted result. -/
theorem similarity_sorted_truncated_witness :
    List.Sorted (fun a b : SimEntry => a.similarity ≤ b.similarity) [] ∧
    ((List.length ([] : List SimEntry) : ℤ) ≤ (5 : ℤ)) :=
  similarity_sorted_truncated (fun _ => .ok []) (fun _ _ => 0)
    { query_text := "q", top_k := 5 }
    { db := [], openConns := 0, commits := 0 }
    { db := [], openConns := 0, commits := 0 } []
    (by decide) (by simp [similarity_memory_search])

/-- C4: ModelUnavailable before initialization — while the global model is
still `none`, the embed, similarity-search and upsert operations all
return the HTTP 503 service-unavailable error (without touching state),
and the health check reports `model_loaded = false`. -/
theorem model_unavailable_before_init (d : TextToEmbed)
    (dist : Vec → Vec → ℚ) (req : SimilaritySearchRequest) (now : Time)
    (record : MemoryRecord) (sts stu : ServiceState) :
    generate_embedding none d =
      .error ⟨503, "Model is not yet loaded or failed to load."⟩ ∧
    similarity_memory_search none dist req sts =
      (.error ⟨503, "Model is not yet loaded or failed to load."⟩, sts) ∧
    insert_update_memory none now record stu =
      (.error ⟨503, "Model is not yet loaded or failed to load."⟩, stu) ∧
    (health_check none).model_loaded = false :=
  ⟨rfl, rfl, rfl, rfl⟩

/-- C6: Upsert result shape on create — when `record.id` is unset a
successful upsert inserts exactly one new row (with the freshly computed
embedding and `created_at`/`updated_at` defaulting to the current time
when omitted), assigns a previously unused id, and returns
`{status: "success", id: <new id>, operation: "insert"}`; the create
response carries no `rows_affected` key (`rows_affected = none`), matching
Scenario 1 — the spec's `operation = created` is rendered `"insert"` by
the code. -/
theorem upsert_create_shape (encode : Model) (v : Vec) (now : Time)
    (record : MemoryRecord) (st : ServiceState)
    (henc : encode record.content = .ok v) (hid : record.id = none) :
    insert_update_memory (some encode) now record st =
      (.ok { status := "success", id := freshId st.db, operation := "insert",
             rows_affected := none },
       { db := st.db ++ [insertedRow record v now (freshId st.db)],
         openConns := st.openConns, commits := st.commits + 1 }) ∧
    freshId st.db ∉ st.db.map Row.id :=
  ⟨upsert_insert_run encode v now record st henc hid, freshId_not_mem st.db⟩

/-- Witness for C6: creating `{title := "A", content := "hello world"}` in
an empty table returns `{status: "success", id: 1, operation: "insert"}`
and appends the one new row; id 1 was unused. -/
theorem upsert_create_shape_witness :
    insert_update_memory (some fun _ => .ok [1]) 0
        { title := "A", content := "hello world" }
        { db := [], openConns := 0, commits := 0 } =
      (.ok { status := "success", id := 1, operation := "insert",
             rows_affected := none },
       { db := [insertedRow { title := "A", content := "hello world" } [1] 0 1],
         openConns := 0, commits := 1 }) ∧
    (1 : ℕ) ∉ List.map Row.id ([] : List Row) :=
  upsert_create_shape (fun _ => .ok [1]) [1] 0
    { title := "A", content := "hello world" }
    { db := [], openConns := 0, commits := 0 } rfl rfl

/-- C5 counterexample: the claim that the per-request connection is
released on every exit path is false — when executing the statement raises
(here a read whose execution fails), the `except` clause of `query_memory`
re-raises without ever calling `conn.close()`, so the operation ends with
one more open connection than it started with. -/
theorem connection_release_counterexample :
    ¬ (∀ (stmt : Statement) (st : ServiceState),
        ((query_memory stmt st).2).openConns = st.openConns) := by
  intro hall
  have h := hall { text := "SELECT * FROM nonexistent", isRead := true,
                   raises := true }
    { db := [], openConns := 0, commits := 0 }
  simp [query_memory] at h

/-- C5 amended: the connection acquired by a database-touching operation
(raw query, similarity search, upsert) is released on every successful
exit path; on an exception after acquisition the code does not close it
(the handlers re-raise without a `finally`). -/
theorem connection_release_on_success (stmt : Statement)
    (model : Option Model) (dist : Vec → Vec → ℚ)
    (req : SimilaritySearchRequest) (now : Time) (record : MemoryRecord)
    (stq stq' sts sts' stu stu' : ServiceState)
    (q : QueryResult) (es : List SimEntry) (u : UpsertResult)
    (hq : query_memory stmt stq = (.ok q, stq'))
    (hs : similarity_memory_search model dist req sts = (.ok es, sts'))
    (hu : insert_update_memory model now record stu = (.ok u, stu')) :
    stq'.openConns = stq.openConns ∧ sts'.openConns = sts.openConns ∧
    stu'.openConns = stu.openConns :=
  ⟨query_memory_success_releases stmt stq stq' q hq,
   similarity_success_releases model dist req sts sts' es hs,
   upsert_success_releases model now record stu stu' u hu⟩

/-- Witness for C5 amended: one successful run of each of the three
operations, each ending with as many open connections as it started
with. -/
theorem connection_release_on_success_witness :
    ({ db := [], openConns := 0, commits := 0 } : ServiceState).openConns =
      ({ db := [], openConns := 0, commits := 0 } : ServiceState).openConns ∧
    ({ db := [], openConns := 0, commits := 0 } : ServiceState).openConns =
      ({ db := [], openConns := 0, commits := 0 } : ServiceState).openConns ∧
    ({ db := [insertedRow { title := "A", content := "x" } [1] 0 1],
       openConns := 0, commits := 1 } : ServiceState).openConns =
      ({ db := [], openConns := 0, commits := 0 } : ServiceState).openConns :=
  connection_release_on_success
    { text := "SELECT 1", isRead := true }
    (some fun _ => .ok [1]) (fun _ _ => 0)
    { query_text := "q", top_k := 5 } 0
    { title := "A", content := "x" }
    { db := [], openConns := 0, commits := 0 }
    { db := [], openConns := 0, commits := 0 }
    { db := [], openConns := 0, commits := 0 }
    { db := [], openConns := 0, commits := 0 }
    { db := [], openConns := 0, commits := 0 }
    { db := [insertedRow { title := "A", content := "x" } [1] 0 1],
      openConns := 0, commits := 1 }
    (.rows []) [] { status := "success", id := 1, operation := "insert",
                    rows_affected := none }
    (by rfl) (by simp [similarity_memory_search]) (by rfl)

/-- C7 counterexample: the raw-query operation does not classify every
statement by its actual kind — a read statement whose text does not begin
with SELECT (here a CTE, `WITH t AS (SELECT 1) SELECT 1`) is routed to the
write branch and does not return its result rows. -/
theorem raw_query_classification_counterexample :
    ¬ (∀ (stmt : Statement) (st : ServiceState),
        stmt.raises = false → stmt.isRead = true →
        ∃ rs st', query_memory stmt st = (.ok (.rows rs), st')) := by
  intro hall
  obtain ⟨rs, st', hq⟩ := hall
    { text := "WITH t AS (SELECT 1) SELECT 1", isRead := true,
      rowcount := 1 }
    { db := [], openConns := 0, commits := 0 } rfl rfl
  have hsel : startsWithSelect "WITH t AS (SELECT 1) SELECT 1" = false := by
    rfl
  simp [query_memory, hsel] at hq

/-- C7 amended: `query_memory` discriminates purely textually — a
statement whose text, stripped and uppercased, starts with SELECT and
actually is a read returns its rows as dictionaries; every statement not
starting with SELECT is committed and returns
`{status: "success", rows_affected: cur.rowcount}`, regardless of whether
it actually is a read or a write.  (A statement starting with SELECT that
is not a read raises: `cur.description` is `None`.) -/
theorem raw_query_textual_classification (stmt : Statement)
    (st : ServiceState) (hra : stmt.raises = false) :
    (startsWithSelect stmt.text = true → stmt.isRead = true →
       query_memory stmt st =
         (.ok (.rows stmt.resultRows),
          { db := st.db, openConns := st.openConns,
            commits := st.commits })) ∧
    (startsWithSelect stmt.text = false →
       query_memory stmt st =
         (.ok (.affected stmt.rowcount),
          { db := stmt.effect st.db, openConns := st.openConns,
            commits := st.commits + 1 })) := by
  constructor
  · intro hsel hrd
    simp [query_memory, hra, hsel, hrd]
  · intro hsel
    simp [query_memory, hra, hsel]

/-- Witness for C7 amended: the CTE read statement is routed to the write
branch, commits, and returns the affected-count dictionary instead of its
rows. -/
theorem raw_query_textual_classification_witness :
    query_memory
        { text := "WITH t AS (SELECT 1) SELECT 1", isRead := true,
          rowcount := 1 }
        { db := [], openConns := 0, commits := 0 } =
      (.ok (.affected 1),
       { db := [], openConns := 0, commits := 1 }) :=
  (raw_query_textual_classification
    { text := "WITH t AS (SELECT 1) SELECT 1", isRead := true,
      rowcount := 1 }
    { db := [], openConns := 0, commits := 0 } rfl).2 rfl

/-- C8: Silent no-op update on missing id — an upsert carrying an id that
matches no stored row succeeds with `rows_affected = 0`, leaves the table
unchanged (no new record, no new id), and raises no error. -/
theorem upsert_missing_id_noop (encode : Model) (v : Vec) (now : Time)
    (record : MemoryRecord) (st : ServiceState) (rid : ℕ)
    (henc : encode record.content = .ok v) (hid : record.id = some rid)
    (hmiss : ∀ r ∈ st.db, r.id ≠ rid) :
    insert_update_memory (some encode) now record st =
      (.ok { status := "success", id := rid, operation := "update",
             rows_affected := some 0 },
       { db := st.db, openConns := st.openConns,
         commits := st.commits + 1 }) := by
  rw [upsert_update_run encode v now record st rid henc hid]
  have hfil : st.db.filter (fun r => r.id = rid) = [] :=
    List.filter_eq_nil_iff.mpr (fun r hr => by simp [hmiss r hr])
  have hmap : st.db.map (updatedRow record v now rid) = st.db := by
    calc st.db.map (updatedRow record v now rid) = st.db.map id :=
          List.map_congr_left (fun r hr => by simp [updatedRow, hmiss r hr])
      _ = st.db := List.map_id _
  rw [hfil, hmap]
  rfl

/-- Witness for C8: updating id 9999 in a table whose only row has id 1
returns success with `rows_affected = 0` and leaves the table as it
was. -/
theorem upsert_missing_id_noop_witness :
    insert_update_memory (some fun _ => .ok [1]) 0
        { id := some 9999, title := "A", content := "x" }
        { db := [insertedRow { title := "B", content := "y" } [2] 0 1],
          openConns := 0, commits := 0 } =
      (.ok { status := "success", id := 9999, operation := "update",
             rows_affected := some 0 },
       { db := [insertedRow { title := "B", content := "y" } [2] 0 1],
         openConns := 0, commits := 1 }) :=
  upsert_missing_id_noop (fun _ => .ok [1]) [1] 0
    { id := some 9999, title := "A", content := "x" }
    { db := [insertedRow { title := "B", content := "y" } [2] 0 1],
      openConns := 0, commits := 0 } 9999 rfl rfl (by decide)

/-- C9: Embedding field hidden from outputs — every row dictionary of a
successful similarity-search response carries exactly the projected
columns of line 122 plus `similarity` and never an `embedding` key, and
every successful upsert response dictionary carries only `status`, `id`,
`operation` and (on update) `rows_affected`, never the embedding. -/
theorem embedding_field_hidden (model : Option Model)
    (dist : Vec → Vec → ℚ) (req : SimilaritySearchRequest) (now : Time)
    (record : MemoryRecord) (sts sts' stu stu' : ServiceState)
    (results : List SimEntry) (u : UpsertResult)
    (_hs : similarity_memory_search model dist req sts = (.ok results, sts'))
    (_hu : insert_update_memory model now record stu = (.ok u, stu')) :
    (∀ e ∈ results,
      (SimEntry.toDict e).map Prod.fst = select_columns ++ ["similarity"] ∧
      "embedding" ∉ (SimEntry.toDict e).map Prod.fst) ∧
    ("embedding" ∉ (UpsertResult.toDict u).map Prod.fst ∧
      ∀ k ∈ (UpsertResult.toDict u).map Prod.fst,
        k = "status" ∨ k = "id" ∨ k = "operation" ∨ k = "rows_affected") := by
  constructor
  · intro e he
    have hkeys : (SimEntry.toDict e).map Prod.fst =
        select_columns ++ ["similarity"] := rfl
    refine ⟨hkeys, ?_⟩
    rw [hkeys]
    decide
  · cases hru : u.rows_affected with
    | none =>
      refine ⟨by simp [UpsertResult.toDict, hru], ?_⟩
      intro k hk
      simp [UpsertResult.toDict, hru] at hk
      rcases hk with h | h | h <;> simp [h]
    | some n =>
      refine ⟨by simp [UpsertResult.toDict, hru], ?_⟩
      intro k hk
      simp [UpsertResult.toDict, hru] at hk
      rcases hk with h | h | h | h <;> simp [h]

/-- Witness for C9: a successful similarity search over an empty table and
a successful insert, whose payload dictionaries contain no embedding
key. -/
theorem embedding_field_hidden_witness :
    (∀ e ∈ ([] : List SimEntry),
      (SimEntry.toDict e).map Prod.fst = select_columns ++ ["similarity"] ∧
      "embedding" ∉ (SimEntry.toDict e).map Prod.fst) ∧
    ("embedding" ∉
        (UpsertResult.toDict
          { status := "success", id := 1, operation := "insert",
            rows_affected := none }).map Prod.fst ∧
      ∀ k ∈ (UpsertResult.toDict
          { status := "success", id := 1, operation := "insert",
            rows_affected := none }).map Prod.fst,
        k = "status" ∨ k = "id" ∨ k = "operation" ∨ k = "rows_affected") :=
  embedding_field_hidden (some fun _ => .ok [1]) (fun _ _ => 0)
    { query_text := "q", top_k := 5 } 0
    { title := "A", content := "x" }
    { db := [], openConns := 0, commits := 0 }
    { db := [], openConns := 0, commits := 0 }
    { db := [], openConns := 0, commits := 0 }
    { db := [insertedRow { title := "A", content := "x" } [1] 0 1],
      openConns := 0, commits := 1 }
    [] { status := "success", id := 1, operation := "insert",
         rows_affected := none }
    (by simp [similarity_memory_search]) (by rfl)

/-- C10 (implicit): `top_k` is accepted as a plain integer with no
positivity check — `SimilaritySearchRequest.top_k` is an unconstrained
`int` defaulting to 5, interpolated into the LIMIT clause — so a request
with `top_k = 0` is not rejected: it succeeds and returns the empty
sequence (and leaves the state as it was). -/
theorem topk_zero_accepted (encode : Model) (qvec : Vec)
    (dist : Vec → Vec → ℚ) (qt : String) (st : ServiceState)
    (henc : encode qt = .ok qvec) :
    similarity_memory_search (some encode) dist
        { query_text := qt, top_k := 0 } st = (.ok [], st) := by
  have h := similarity_run encode qvec dist { query_text := qt, top_k := 0 }
    st henc (le_refl 0)
  rw [h]
  rfl

/-- Witness for C10: a `top_k = 0` search over a one-row table succeeds
with the empty result. -/
theorem topk_zero_accepted_witness :
    similarity_memory_search (some fun _ => .ok [1]) (fun _ _ => 0)
        { query_text := "q", top_k := 0 }
        { db := [insertedRow { title := "B", content := "y" } [2] 0 1],
          openConns := 0, commits := 0 } =
      (.ok [],
       { db := [insertedRow { title := "B", content := "y" } [2] 0 1],
         openConns := 0, commits := 0 }) :=
  topk_zero_accepted (fun _ => .ok [1]) [1] (fun _ _ => 0) "q"
    { db := [insertedRow { title := "B", content := "y" } [2] 0 1],
      openConns := 0, commits := 0 } rfl

end App
